import Mathlib

/-!
# issue-puller: a shallow embedding of `Handle` and `QueryIssues`

Source: `src/issue-puller/handle.go`.

The two functions of the package are embedded as state-passing functions over
an `Effects` record, which logs every call the program makes into the Go
standard library (the response sink, standard output, `http.NewRequest`,
`client.Do`, `resp.Body.Close`).  Everything the standard library and the
network decide (the process environment, whether a URL parses, what the remote
answers, how the body stream behaves) is a field of `World`.
-/

set_option autoImplicit false

namespace IssuePuller

/-! ## Data -/

/-- Contents of a Go byte slice. -/
abbrev Bytes := List UInt8

/-- A Go `error` value, observed through the text that `Error()` returns. -/
structure GoError where
  msg : String
deriving DecidableEq, Repr

/-- Go `http.Header`: canonical key to the list of its values.  A Go map has no
order; the list keeps keys in order of first insertion. -/
abbrev Header := List (String × List String)

/-- Go `http.Request`, restricted to the fields the package touches.  `URL` is
the string that was handed to `http.NewRequest`. -/
structure Request where
  Method : String
  URL : String
  Header : IssuePuller.Header
  Body : Bytes
deriving DecidableEq, Repr

/-- The `err` result of one `Read` on a body stream: `nil`, `io.EOF`, or another
error. -/
inductive ReadStatus where
  | more
  | eof
  | fail (e : GoError)
deriving DecidableEq, Repr

/-- One `Read` on a body stream: the bytes delivered and the `err` result. -/
structure ReadResult where
  data : Bytes
  status : ReadStatus
deriving DecidableEq, Repr

/-- The body of a response as the successive results of `Read`.  A stream whose
list is exhausted answers `0, io.EOF`. -/
abbrev BodyReader := List ReadResult

/-- Go `http.Response`, restricted to status code and body. -/
structure Response where
  StatusCode : Int
  Body : BodyReader
deriving DecidableEq, Repr

/-- Go `context.Context`, as far as a caller can vary it. -/
structure Context where
  cancelled : Bool
  deadline : Option Nat
  values : List (String × String)
deriving DecidableEq, Repr

/-- Everything outside the package that decides a run: the process environment
(`os.LookupEnv`), the error of `url.Parse` inside `http.NewRequest` (`none` when
the URL parses), and the outcome of `(*http.Client).Do`. -/
structure World where
  environ : String → Option String
  urlParse : String → Option GoError
  roundTrip : Request → Except GoError Response

/-- An operation on the `http.ResponseWriter`. -/
inductive SinkOp where
  | setHeader (key value : String)
  | writeHeader (status : Int)
  | write (b : Bytes)
deriving DecidableEq, Repr

/-- The log of calls a run makes, each list in call order: `sink` the operations
on the response writer, `stdout` the texts printed, `queries` the entries into
`QueryIssues` with their arguments, `newRequests` the arguments of
`http.NewRequest`, `sent` the requests passed to `client.Do`, and `closed` the
number of response bodies closed. -/
structure Effects where
  sink : List SinkOp
  stdout : List String
  queries : List (String × String × String)
  newRequests : List (String × String × Bytes)
  sent : List Request
  closed : Nat
deriving DecidableEq, Repr

/-- The log of a run that has not done anything yet. -/
def Effects.empty : Effects :=
  { sink := [], stdout := [], queries := [], newRequests := [], sent := [], closed := 0 }

/-! ## Standard library functions the package calls -/

/-- Go `os.Getenv`: the value of the variable, the empty string when unset. -/
def Getenv (w : World) (key : String) : String :=
  (w.environ key).getD ""

/-- Go `fmt.Sprintf` for the verbs `%s` and `%%` with string operands.  A `%s`
without operand prints `%!s(MISSING)`, operands left over print `%!(EXTRA ...)`.
Formats with other verbs are outside this model. -/
def sprintfAux : List Char → List String → List Char
  | [], [] => []
  | [], a :: args =>
    ("%!(EXTRA " ++ ", ".intercalate ((a :: args).map (fun s => "string=" ++ s)) ++ ")").data
  | '%' :: 's' :: fmt, a :: args => a.data ++ sprintfAux fmt args
  | '%' :: 's' :: fmt, [] => "%!s(MISSING)".data ++ sprintfAux fmt []
  | '%' :: '%' :: fmt, args => '%' :: sprintfAux fmt args
  | c :: fmt, args => c :: sprintfAux fmt args

/-- Go `fmt.Sprintf(format, args...)` on string operands. -/
def Sprintf (format : String) (args : List String) : String :=
  String.mk (sprintfAux format.data args)

/-- Go `strings.NewReader(s)`: a reader over the bytes of `s`. -/
def NewReader (s : String) : Bytes :=
  s.toUTF8.data.toList

/-- The bytes that `textproto` accepts in a header field name. -/
def validHeaderFieldByte (c : Char) : Bool :=
  c.isAlphanum || "!#$%&*+-.^_|~".data.contains c || c.toNat = 39 || c.toNat = 96

/-- The letter-case pass of `textproto.CanonicalMIMEHeaderKey`: upper case at the
start and after a hyphen, lower case elsewhere. -/
def canonicalCase : Bool → List Char → List Char
  | _, [] => []
  | upper, c :: cs =>
    (if upper then c.toUpper else c.toLower) :: canonicalCase (c == '-') cs

/-- Go `textproto.CanonicalMIMEHeaderKey`: a key with a byte that is not valid in
a field name is returned unchanged. -/
def CanonicalMIMEHeaderKey (s : String) : String :=
  if s.data.all validHeaderFieldByte then String.mk (canonicalCase true s.data) else s

/-- Go `Header.Add`: append the value to the values of the canonical key. -/
def Header.Add (h : Header) (key value : String) : Header :=
  let k := CanonicalMIMEHeaderKey key
  if h.any (fun e => e.1 == k) then
    h.map (fun e => if e.1 == k then (e.1, e.2 ++ [value]) else e)
  else
    h ++ [(k, [value])]

/-- Go `Header.Values`: all values of the canonical key. -/
def Header.Values (h : Header) (key : String) : List String :=
  (h.lookup (CanonicalMIMEHeaderKey key)).getD []

/-- Go `http.NewRequest(method, url, body)`.  For the method `GET` the only
failure is that of `url.Parse`; the new request has an empty header. -/
def NewRequest (w : World) (method url : String) (body : Bytes) (fx : Effects) :
    Except GoError Request × Effects :=
  let fx := { fx with newRequests := fx.newRequests ++ [(method, url, body)] }
  match w.urlParse url with
  | some err => (.error err, fx)
  | none => (.ok { Method := method, URL := url, Header := [], Body := body }, fx)

/-- Go `client.Do(req)` on a fresh `http.Client`. -/
def ClientDo (w : World) (req : Request) (fx : Effects) : Except GoError Response × Effects :=
  (w.roundTrip req, { fx with sent := fx.sent ++ [req] })

/-- The loop of `ioutil.ReadAll`: every `Read` extends `b`; the first non-nil
`err` ends the loop, `io.EOF` being turned into `nil`. -/
def readAllLoop : BodyReader → Bytes → Bytes × Option GoError
  | [], b => (b, none)
  | r :: rest, b =>
    match r.status with
    | .more => readAllLoop rest (b ++ r.data)
    | .eof => (b ++ r.data, none)
    | .fail e => (b ++ r.data, some e)

/-- Go `ioutil.ReadAll(r)`.  The slice returned is never nil (`some`). -/
def ReadAll (r : BodyReader) : Option Bytes × Option GoError :=
  let out := readAllLoop r []
  (some out.1, out.2)

/-- Go `res.Write(body)`; a nil slice writes no bytes. -/
def ResponseWriter.Write (body : Option Bytes) (fx : Effects) : Effects :=
  { fx with sink := fx.sink ++ [SinkOp.write (body.getD [])] }

/-- Go `fmt.Println(err)`: the text of the error and a newline on standard
output. -/
def Println (err : GoError) (fx : Effects) : Effects :=
  { fx with stdout := fx.stdout ++ [err.msg ++ "\n"] }

/-! ## The package -/

/-- Source `QueryIssues` (handle.go, lines 25-40).  The result pairs the byte
slice (`none` is the nil slice) with the error (`none` is nil). -/
def QueryIssues (w : World) (org repo token : String) (fx : Effects) :
    (Option Bytes × Option GoError) × Effects :=
  let fx := { fx with queries := fx.queries ++ [(org, repo, token)] }
  let url := Sprintf "https://api.github.com/repos/%s/%s/issues" [org, repo]
  match NewRequest w "GET" url (NewReader "") fx with
  | (.error err, fx) => ((none, some err), fx)
  | (.ok req, fx) =>
    let req := { req with Header := req.Header.Add "Content-Type" "application/vnd.github.v3+json" }
    let req := { req with Header := req.Header.Add "Authorization" ("Bearer " ++ token) }
    match ClientDo w req fx with
    | (.error err, fx) => ((none, some err), fx)
    | (.ok resp, fx) =>
      (ReadAll resp.Body, { fx with closed := fx.closed + 1 })

/-- Source `Handle` (handle.go, lines 12-23).  The response writer `res` is the
`sink` component of the log; `ctx` and `req` are the incoming context and
request. -/
def Handle (w : World) (_ctx : Context) (_req : Request) (fx : Effects) : Effects :=
  let org := Getenv w "GITHUB_ORG"
  let repo := Getenv w "GITHUB_REPO"
  let token := Getenv w "GITHUB_TOKEN"
  match QueryIssues w org repo token fx with
  | ((body, none), fx) => ResponseWriter.Write body fx
  | ((_, some err), fx) => Println err fx

/-! ## Specification-side definitions -/

/-- The URL template of the specification with `org` and `repo` substituted
verbatim. -/
def issuesURL (org repo : String) : String :=
  "https://api.github.com/repos/" ++ org ++ "/" ++ repo ++ "/issues"

/-- The outbound request of the specification: `GET` on the issues URL, no
body, and the two headers. -/
def issuesRequest (org repo token : String) : Request :=
  { Method := "GET"
    URL := issuesURL org repo
    Header := [("Content-Type", ["application/vnd.github.v3+json"]),
               ("Authorization", ["Bearer " ++ token])]
    Body := [] }

/-- The bytes a body stream delivers up to and including its first `Read` that
reports `io.EOF` or an error. -/
def bodyBytes : BodyReader → Bytes
  | [] => []
  | r :: rest =>
    match r.status with
    | .more => r.data ++ bodyBytes rest
    | _ => r.data

/-- The error that ends a body stream, `none` when it ends in `io.EOF`. -/
def readError : BodyReader → Option GoError
  | [] => none
  | r :: rest =>
    match r.status with
    | .more => readError rest
    | .eof => none
    | .fail e => some e

/-- The log after `QueryIssues` has called `http.NewRequest`. -/
def afterNewRequest (org repo token : String) (fx : Effects) : Effects :=
  { fx with
    queries := fx.queries ++ [(org, repo, token)]
    newRequests := fx.newRequests ++ [("GET", issuesURL org repo, [])] }

/-- The log after `QueryIssues` has called `client.Do`. -/
def afterDo (org repo token : String) (fx : Effects) : Effects :=
  { afterNewRequest org repo token fx with
    sent := fx.sent ++ [issuesRequest org repo token] }

/-- The log after `QueryIssues` has read and closed the response body. -/
def afterRead (org repo token : String) (fx : Effects) : Effects :=
  { afterDo org repo token fx with closed := fx.closed + 1 }

/-- Go `[]byte(s)`: the bytes of a string. -/
def bytesOf (s : String) : Bytes :=
  s.toUTF8.data.toList

/-! ## Concrete worlds -/

/-- An environment that sets at most the three variables the handler reads. -/
def envOf (org repo token : Option String) : String → Option String := fun k =>
  if k = "GITHUB_ORG" then org
  else if k = "GITHUB_REPO" then repo
  else if k = "GITHUB_TOKEN" then token
  else none

/-- A world in which every URL parses and the remote answers every request with
the given status code and a body that is delivered in one piece. -/
def remoteWorld (env : String → Option String) (status : Int) (body : Bytes) : World :=
  { environ := env
    urlParse := fun _ => none
    roundTrip := fun _ => .ok { StatusCode := status, Body := [⟨body, .more⟩, ⟨[], .eof⟩] } }

/-- A world in which the remote answers, and the body stream breaks with the
given error after the given bytes. -/
def brokenBodyWorld (env : String → Option String) (read : Bytes) (e : GoError) : World :=
  { environ := env
    urlParse := fun _ => none
    roundTrip := fun _ => .ok { StatusCode := 200, Body := [⟨read, .more⟩, ⟨[], .fail e⟩] } }

/-- A world in which every URL parses and no connection can be made. -/
def refusedWorld (env : String → Option String) (e : GoError) : World :=
  { environ := env
    urlParse := fun _ => none
    roundTrip := fun _ => .error e }

/-- The percent-escape check of `url.Parse`: a percent sign must be followed by
two hexadecimal digits. -/
def hasBadEscape : List Char → Bool
  | [] => false
  | '%' :: a :: b :: rest =>
    !((a.isDigit || ('a' ≤ a.toLower && a.toLower ≤ 'f'))
      && (b.isDigit || ('a' ≤ b.toLower && b.toLower ≤ 'f'))) || hasBadEscape rest
  | '%' :: _ => true
  | _ :: rest => hasBadEscape rest

/-- A world in which `url.Parse` rejects the URLs with a malformed percent
escape, and no connection can be made. -/
def strictParseWorld (env : String → Option String) (eParse eDo : GoError) : World :=
  { environ := env
    urlParse := fun u => if hasBadEscape u.data then some eParse else none
    roundTrip := fun _ => .error eDo }

/-- The error of `url.Parse` on the issues URL of the organisation `%zz`. -/
def parseFailure : GoError :=
  ⟨"parse \"https://api.github.com/repos/%zz/widgets/issues\": invalid URL escape \"%zz\""⟩

/-- The error of `client.Do` when the remote host refuses the connection. -/
def dialFailure : GoError :=
  ⟨"Get \"https://api.github.com/repos/acme/widgets/issues\": dial tcp 140.82.112.6:443: connect: connection refused"⟩

/-! ## Lemmas on the standard library model -/

theorem Sprintf_issues (org repo : String) :
    Sprintf "https://api.github.com/repos/%s/%s/issues" [org, repo] = issuesURL org repo := by
  apply String.ext
  simp [Sprintf, sprintfAux, issuesURL]

theorem readAllLoop_eq (r : BodyReader) (b : Bytes) :
    readAllLoop r b = (b ++ bodyBytes r, readError r) := by
  induction r generalizing b with
  | nil => simp [readAllLoop, bodyBytes, readError]
  | cons x rest ih =>
    cases hx : x.status <;> simp [readAllLoop, bodyBytes, readError, hx, ih]

theorem ReadAll_eq (r : BodyReader) : ReadAll r = (some (bodyBytes r), readError r) := by
  simp [ReadAll, readAllLoop_eq]

theorem issues_header (token : String) :
    Header.Add (Header.Add [] "Content-Type" "application/vnd.github.v3+json")
      "Authorization" ("Bearer " ++ token)
      = [("Content-Type", ["application/vnd.github.v3+json"]),
         ("Authorization", ["Bearer " ++ token])] := by
  have h1 : CanonicalMIMEHeaderKey "Content-Type" = "Content-Type" := by decide
  have h2 : CanonicalMIMEHeaderKey "Authorization" = "Authorization" := by decide
  simp [Header.Add, h1, h2]

theorem QueryIssues_parse_error (w : World) (org repo token : String) (fx : Effects)
    (e : GoError) (hparse : w.urlParse (issuesURL org repo) = some e) :
    QueryIssues w org repo token fx = ((none, some e), afterNewRequest org repo token fx) := by
  have h0 : NewReader "" = [] := by decide
  simp [QueryIssues, NewRequest, Sprintf_issues, hparse, h0, afterNewRequest]

theorem QueryIssues_do_error (w : World) (org repo token : String) (fx : Effects)
    (e : GoError) (hparse : w.urlParse (issuesURL org repo) = none)
    (hdo : w.roundTrip (issuesRequest org repo token) = .error e) :
    QueryIssues w org repo token fx = ((none, some e), afterDo org repo token fx) := by
  have h0 : NewReader "" = [] := by decide
  have hreq := hdo
  simp only [issuesRequest] at hreq
  simp [QueryIssues, NewRequest, ClientDo, Sprintf_issues, hparse, h0, issues_header, hreq,
    afterDo, afterNewRequest, issuesRequest]

theorem QueryIssues_response (w : World) (org repo token : String) (fx : Effects)
    (resp : Response) (hparse : w.urlParse (issuesURL org repo) = none)
    (hdo : w.roundTrip (issuesRequest org repo token) = .ok resp) :
    QueryIssues w org repo token fx
      = ((some (bodyBytes resp.Body), readError resp.Body), afterRead org repo token fx) := by
  have h0 : NewReader "" = [] := by decide
  have hreq := hdo
  simp only [issuesRequest] at hreq
  simp [QueryIssues, NewRequest, ClientDo, Sprintf_issues, hparse, h0, issues_header, hreq,
    ReadAll_eq, afterRead, afterDo, afterNewRequest, issuesRequest]

theorem QueryIssues_cases (w : World) (org repo token : String) (fx : Effects) :
    (∃ e, w.urlParse (issuesURL org repo) = some e ∧
        QueryIssues w org repo token fx = ((none, some e), afterNewRequest org repo token fx)) ∨
    (∃ e, w.urlParse (issuesURL org repo) = none ∧
        w.roundTrip (issuesRequest org repo token) = .error e ∧
        QueryIssues w org repo token fx = ((none, some e), afterDo org repo token fx)) ∨
    (∃ resp, w.urlParse (issuesURL org repo) = none ∧
        w.roundTrip (issuesRequest org repo token) = .ok resp ∧
        QueryIssues w org repo token fx
          = ((some (bodyBytes resp.Body), readError resp.Body), afterRead org repo token fx)) := by
  cases hparse : w.urlParse (issuesURL org repo) with
  | some e => exact Or.inl ⟨e, rfl, QueryIssues_parse_error w org repo token fx e hparse⟩
  | none =>
    cases hdo : w.roundTrip (issuesRequest org repo token) with
    | error e =>
      exact Or.inr (Or.inl ⟨e, rfl, rfl, QueryIssues_do_error w org repo token fx e hparse hdo⟩)
    | ok resp =>
      exact Or.inr (Or.inr ⟨resp, rfl, rfl,
        QueryIssues_response w org repo token fx resp hparse hdo⟩)

theorem QueryIssues_sink (w : World) (org repo token : String) (fx : Effects) :
    (QueryIssues w org repo token fx).2.sink = fx.sink ∧
    (QueryIssues w org repo token fx).2.stdout = fx.stdout := by
  rcases QueryIssues_cases w org repo token fx with ⟨e, _, h⟩ | ⟨e, _, _, h⟩ | ⟨resp, _, _, h⟩ <;>
    simp [h, afterRead, afterDo, afterNewRequest]

theorem QueryIssues_queries (w : World) (org repo token : String) (fx : Effects) :
    (QueryIssues w org repo token fx).2.queries = fx.queries ++ [(org, repo, token)] ∧
    (QueryIssues w org repo token fx).2.newRequests
      = fx.newRequests ++ [("GET", issuesURL org repo, [])] := by
  rcases QueryIssues_cases w org repo token fx with ⟨e, _, h⟩ | ⟨e, _, _, h⟩ | ⟨resp, _, _, h⟩ <;>
    simp [h, afterRead, afterDo, afterNewRequest]

theorem QueryIssues_sent (w : World) (org repo token : String) (fx : Effects)
    (hparse : w.urlParse (issuesURL org repo) = none) :
    (QueryIssues w org repo token fx).2.sent = fx.sent ++ [issuesRequest org repo token] := by
  rcases QueryIssues_cases w org repo token fx with ⟨e, h0, _⟩ | ⟨e, _, _, h⟩ | ⟨resp, _, _, h⟩
  · simp [hparse] at h0
  · simp [h, afterDo]
  · simp [h, afterRead, afterDo]

theorem issues_authorization (org repo token : String) :
    Header.Values (issuesRequest org repo token).Header "Authorization" = ["Bearer " ++ token] := by
  have h2 : CanonicalMIMEHeaderKey "Authorization" = "Authorization" := by decide
  simp [Header.Values, issuesRequest, h2, List.lookup]

theorem Handle_ok (w : World) (ctx : Context) (req : Request) (fx fx1 : Effects)
    (b : Option Bytes)
    (h : QueryIssues w (Getenv w "GITHUB_ORG") (Getenv w "GITHUB_REPO") (Getenv w "GITHUB_TOKEN") fx
      = ((b, none), fx1)) :
    Handle w ctx req fx = ResponseWriter.Write b fx1 := by
  simp [Handle, h]

theorem Handle_err (w : World) (ctx : Context) (req : Request) (fx fx1 : Effects)
    (b : Option Bytes) (e : GoError)
    (h : QueryIssues w (Getenv w "GITHUB_ORG") (Getenv w "GITHUB_REPO") (Getenv w "GITHUB_TOKEN") fx
      = ((b, some e), fx1)) :
    Handle w ctx req fx = Println e fx1 := by
  simp [Handle, h]

theorem Handle_log (w : World) (ctx : Context) (req : Request) (fx : Effects) :
    (Handle w ctx req fx).queries
      = (QueryIssues w (Getenv w "GITHUB_ORG") (Getenv w "GITHUB_REPO")
          (Getenv w "GITHUB_TOKEN") fx).2.queries ∧
    (Handle w ctx req fx).newRequests
      = (QueryIssues w (Getenv w "GITHUB_ORG") (Getenv w "GITHUB_REPO")
          (Getenv w "GITHUB_TOKEN") fx).2.newRequests ∧
    (Handle w ctx req fx).sent
      = (QueryIssues w (Getenv w "GITHUB_ORG") (Getenv w "GITHUB_REPO")
          (Getenv w "GITHUB_TOKEN") fx).2.sent := by
  generalize hq : QueryIssues w (Getenv w "GITHUB_ORG") (Getenv w "GITHUB_REPO")
    (Getenv w "GITHUB_TOKEN") fx = q
  obtain ⟨⟨b, err⟩, fx1⟩ := q
  cases err with
  | none => simp [Handle_ok w ctx req fx fx1 b hq, ResponseWriter.Write]
  | some e => simp [Handle_err w ctx req fx fx1 b e hq, Println]

theorem Handle_sink_ok (w : World) (ctx : Context) (req : Request) (fx : Effects)
    (b : Option Bytes)
    (h : (QueryIssues w (Getenv w "GITHUB_ORG") (Getenv w "GITHUB_REPO")
      (Getenv w "GITHUB_TOKEN") fx).1 = (b, none)) :
    (Handle w ctx req fx).sink = fx.sink ++ [SinkOp.write (b.getD [])] ∧
    (Handle w ctx req fx).stdout = fx.stdout := by
  generalize hq : QueryIssues w (Getenv w "GITHUB_ORG") (Getenv w "GITHUB_REPO")
    (Getenv w "GITHUB_TOKEN") fx = q at h
  have hs := QueryIssues_sink w (Getenv w "GITHUB_ORG") (Getenv w "GITHUB_REPO")
    (Getenv w "GITHUB_TOKEN") fx
  rw [hq] at hs
  obtain ⟨r, fx1⟩ := q
  simp only at h
  subst h
  simp only at hs
  simp [Handle_ok w ctx req fx fx1 b hq, ResponseWriter.Write, hs.1, hs.2]

theorem Handle_sink_err (w : World) (ctx : Context) (req : Request) (fx : Effects)
    (b : Option Bytes) (e : GoError)
    (h : (QueryIssues w (Getenv w "GITHUB_ORG") (Getenv w "GITHUB_REPO")
      (Getenv w "GITHUB_TOKEN") fx).1 = (b, some e)) :
    (Handle w ctx req fx).sink = fx.sink ∧
    (Handle w ctx req fx).stdout = fx.stdout ++ [e.msg ++ "\n"] := by
  generalize hq : QueryIssues w (Getenv w "GITHUB_ORG") (Getenv w "GITHUB_REPO")
    (Getenv w "GITHUB_TOKEN") fx = q at h
  have hs := QueryIssues_sink w (Getenv w "GITHUB_ORG") (Getenv w "GITHUB_REPO")
    (Getenv w "GITHUB_TOKEN") fx
  rw [hq] at hs
  obtain ⟨r, fx1⟩ := q
  simp only at h
  subst h
  simp only at hs
  simp [Handle_err w ctx req fx fx1 b e hq, Println, hs.1, hs.2]

/-! ## The claims -/

/-- C1: when the URL parses and the remote answers the request with any status
code and a body stream that ends in `io.EOF`, `QueryIssues` returns a nil error
and exactly the bytes of the response body. -/
theorem QueryIssues_returns_body (w : World) (org repo token : String) (fx : Effects)
    (code : Int) (body : BodyReader)
    (hparse : w.urlParse (issuesURL org repo) = none)
    (hdo : w.roundTrip (issuesRequest org repo token) = .ok { StatusCode := code, Body := body })
    (hread : readError body = none) :
    (QueryIssues w org repo token fx).1 = (some (bodyBytes body), none) := by
  rw [QueryIssues_response w org repo token fx _ hparse hdo]
  simp [hread]

theorem QueryIssues_returns_body_witness :
    (remoteWorld (envOf none none none) 404 [1, 2, 3]).urlParse (issuesURL "acme" "widgets") = none ∧
    (remoteWorld (envOf none none none) 404 [1, 2, 3]).roundTrip
        (issuesRequest "acme" "widgets" "abc123")
      = .ok { StatusCode := 404, Body := [⟨[1, 2, 3], .more⟩, ⟨[], .eof⟩] } ∧
    readError [⟨[1, 2, 3], .more⟩, ⟨[], .eof⟩] = none ∧
    (QueryIssues (remoteWorld (envOf none none none) 404 [1, 2, 3]) "acme" "widgets" "abc123"
        Effects.empty).1 = (some [1, 2, 3], none) :=
  ⟨rfl, rfl, rfl,
    QueryIssues_returns_body (remoteWorld (envOf none none none) 404 [1, 2, 3])
      "acme" "widgets" "abc123" Effects.empty 404 [⟨[1, 2, 3], .more⟩, ⟨[], .eof⟩] rfl rfl rfl⟩

/-- C2: for all strings `org` and `repo` the URL that `QueryIssues` formats and
hands to `http.NewRequest` is the template with both substituted verbatim;
special characters and empty strings are not escaped. -/
theorem QueryIssues_url_verbatim (w : World) (org repo token : String) (fx : Effects) :
    Sprintf "https://api.github.com/repos/%s/%s/issues" [org, repo]
      = "https://api.github.com/repos/" ++ org ++ "/" ++ repo ++ "/issues" ∧
    (QueryIssues w org repo token fx).2.newRequests
      = fx.newRequests
        ++ [("GET", "https://api.github.com/repos/" ++ org ++ "/" ++ repo ++ "/issues", [])] ∧
    (QueryIssues w "a/b?c#d%e f" "" token fx).2.newRequests
      = fx.newRequests ++ [("GET", "https://api.github.com/repos/a/b?c#d%e f//issues", [])] := by
  refine ⟨Sprintf_issues org repo, (QueryIssues_queries w org repo token fx).2, ?_⟩
  rw [(QueryIssues_queries w "a/b?c#d%e f" "" token fx).2]
  have h : issuesURL "a/b?c#d%e f" "" = "https://api.github.com/repos/a/b?c#d%e f//issues" := by
    decide
  rw [h]

/-- C3: whenever `QueryIssues` constructs the outbound request, it sends that one
request, whose Authorization header has the single value `"Bearer " ++ token`;
for the empty token the value is `"Bearer "` and the request is sent as well. -/
theorem QueryIssues_authorization (w : World) (org repo token : String) (fx : Effects)
    (hparse : w.urlParse (issuesURL org repo) = none) :
    ∃ req, (QueryIssues w org repo token fx).2.sent = fx.sent ++ [req] ∧
      Header.Values req.Header "Authorization" = ["Bearer " ++ token] ∧
      (token = "" → Header.Values req.Header "Authorization" = ["Bearer "]) := by
  refine ⟨issuesRequest org repo token, QueryIssues_sent w org repo token fx hparse,
    issues_authorization org repo token, ?_⟩
  intro h
  subst h
  rw [issues_authorization]
  decide

theorem QueryIssues_authorization_witness :
    (remoteWorld (envOf none none none) 200 []).urlParse (issuesURL "acme" "widgets") = none ∧
    ∃ req, (QueryIssues (remoteWorld (envOf none none none) 200 []) "acme" "widgets" ""
          Effects.empty).2.sent = Effects.empty.sent ++ [req] ∧
      Header.Values req.Header "Authorization" = ["Bearer " ++ ""] ∧
      ("" = "" → Header.Values req.Header "Authorization" = ["Bearer "]) :=
  ⟨rfl, QueryIssues_authorization (remoteWorld (envOf none none none) 200 [])
    "acme" "widgets" "" Effects.empty rfl⟩

/-- C4: when the call fails before a response body is obtained, because the URL
does not parse in `http.NewRequest` or because `client.Do` fails, `QueryIssues`
returns the nil slice together with that non-nil error. -/
theorem QueryIssues_fails_early (w : World) (org repo token : String) (fx : Effects)
    (e : GoError)
    (h : w.urlParse (issuesURL org repo) = some e ∨
      (w.urlParse (issuesURL org repo) = none ∧
        w.roundTrip (issuesRequest org repo token) = .error e)) :
    (QueryIssues w org repo token fx).1 = (none, some e) := by
  rcases h with h | ⟨h1, h2⟩
  · rw [QueryIssues_parse_error w org repo token fx e h]
  · rw [QueryIssues_do_error w org repo token fx e h1 h2]

theorem QueryIssues_fails_early_witness :
    ((refusedWorld (envOf none none none) ⟨"connection refused"⟩).urlParse
          (issuesURL "acme" "widgets") = some ⟨"connection refused"⟩ ∨
      ((refusedWorld (envOf none none none) ⟨"connection refused"⟩).urlParse
            (issuesURL "acme" "widgets") = none ∧
        (refusedWorld (envOf none none none) ⟨"connection refused"⟩).roundTrip
            (issuesRequest "acme" "widgets" "abc123") = .error ⟨"connection refused"⟩)) ∧
    (QueryIssues (refusedWorld (envOf none none none) ⟨"connection refused"⟩)
        "acme" "widgets" "abc123" Effects.empty).1 = (none, some ⟨"connection refused"⟩) :=
  ⟨Or.inr ⟨rfl, rfl⟩,
    QueryIssues_fails_early (refusedWorld (envOf none none none) ⟨"connection refused"⟩)
      "acme" "widgets" "abc123" Effects.empty ⟨"connection refused"⟩ (Or.inr ⟨rfl, rfl⟩)⟩

/-- C5: when `QueryIssues` returns a nil error with bytes `b`, `Handle` does exactly
one operation on the response sink, a write of exactly `b`; it sets no status
code and no header.  With remote status 200 and body
`[{"id":1}]` the sink receives that body, and with remote status 404 and body
`{"message":"Not Found"}` it receives that body. -/
theorem Handle_writes_body (w : World) (ctx : Context) (req : Request) (fx : Effects)
    (b : Option Bytes)
    (h : (QueryIssues w (Getenv w "GITHUB_ORG") (Getenv w "GITHUB_REPO")
      (Getenv w "GITHUB_TOKEN") fx).1 = (b, none)) :
    (Handle w ctx req fx).sink = fx.sink ++ [SinkOp.write (b.getD [])] ∧
    (∀ (c : Context) (r : Request),
      (Handle (remoteWorld (envOf (some "acme") (some "widgets") (some "abc123")) 200
          (bytesOf "[\x7b\"id\":1\x7d]")) c r Effects.empty).sink
        = [SinkOp.write (bytesOf "[\x7b\"id\":1\x7d]")]) ∧
    (∀ (c : Context) (r : Request),
      (Handle (remoteWorld (envOf (some "acme") (some "widgets") (some "abc123")) 404
          (bytesOf "\x7b\"message\":\"Not Found\"\x7d")) c r Effects.empty).sink
        = [SinkOp.write (bytesOf "\x7b\"message\":\"Not Found\"\x7d")]) := by
  refine ⟨(Handle_sink_ok w ctx req fx b h).1, ?_, ?_⟩
  · intro c r
    have hq := QueryIssues_response
      (remoteWorld (envOf (some "acme") (some "widgets") (some "abc123")) 200
        (bytesOf "[\x7b\"id\":1\x7d]")) "acme" "widgets" "abc123" Effects.empty _ rfl rfl
    exact (Handle_sink_ok _ c r Effects.empty _ (congrArg Prod.fst hq)).1
  · intro c r
    have hq := QueryIssues_response
      (remoteWorld (envOf (some "acme") (some "widgets") (some "abc123")) 404
        (bytesOf "\x7b\"message\":\"Not Found\"\x7d")) "acme" "widgets" "abc123"
        Effects.empty _ rfl rfl
    exact (Handle_sink_ok _ c r Effects.empty _ (congrArg Prod.fst hq)).1

theorem Handle_writes_body_witness :
    (QueryIssues (remoteWorld (envOf (some "acme") none none) 200 [])
        (Getenv (remoteWorld (envOf (some "acme") none none) 200 []) "GITHUB_ORG")
        (Getenv (remoteWorld (envOf (some "acme") none none) 200 []) "GITHUB_REPO")
        (Getenv (remoteWorld (envOf (some "acme") none none) 200 []) "GITHUB_TOKEN")
        Effects.empty).1 = (some [], none) ∧
    (Handle (remoteWorld (envOf (some "acme") none none) 200 []) ⟨false, none, []⟩
        ⟨"POST", "/", [], [7]⟩ Effects.empty).sink = [SinkOp.write []] :=
  ⟨rfl, (Handle_writes_body (remoteWorld (envOf (some "acme") none none) 200 [])
    ⟨false, none, []⟩ ⟨"POST", "/", [], [7]⟩ Effects.empty (some []) rfl).1⟩

/-- C6: when `QueryIssues` returns a non-nil error, `Handle` does nothing on the
response sink and prints the error on standard output.  This covers a body
stream that breaks partway: `QueryIssues` then returns the bytes read so far
together with the error, and `Handle` writes none of them. -/
theorem Handle_error_writes_nothing (w : World) (ctx : Context) (req : Request)
    (fx : Effects) (b : Option Bytes) (e : GoError)
    (h : (QueryIssues w (Getenv w "GITHUB_ORG") (Getenv w "GITHUB_REPO")
      (Getenv w "GITHUB_TOKEN") fx).1 = (b, some e)) :
    (Handle w ctx req fx).sink = fx.sink ∧
    (Handle w ctx req fx).stdout = fx.stdout ++ [e.msg ++ "\n"] ∧
    (∀ (v : World) (c : Context) (r : Request) (gx : Effects) (resp : Response)
        (err : GoError),
      v.urlParse (issuesURL (Getenv v "GITHUB_ORG") (Getenv v "GITHUB_REPO")) = none →
      v.roundTrip (issuesRequest (Getenv v "GITHUB_ORG") (Getenv v "GITHUB_REPO")
        (Getenv v "GITHUB_TOKEN")) = .ok resp →
      readError resp.Body = some err →
      (QueryIssues v (Getenv v "GITHUB_ORG") (Getenv v "GITHUB_REPO")
        (Getenv v "GITHUB_TOKEN") gx).1 = (some (bodyBytes resp.Body), some err) ∧
      (Handle v c r gx).sink = gx.sink ∧
      (Handle v c r gx).stdout = gx.stdout ++ [err.msg ++ "\n"]) := by
  refine ⟨(Handle_sink_err w ctx req fx b e h).1, (Handle_sink_err w ctx req fx b e h).2, ?_⟩
  intro v c r gx resp err hparse hdo hread
  have hq := QueryIssues_response v _ _ _ gx resp hparse hdo
  rw [hread] at hq
  have h1 := congrArg Prod.fst hq
  exact ⟨h1, Handle_sink_err v c r gx _ err h1⟩

theorem Handle_error_writes_nothing_witness :
    (QueryIssues (brokenBodyWorld (envOf (some "acme") (some "widgets") none) [1, 2]
          ⟨"unexpected EOF"⟩)
        (Getenv (brokenBodyWorld (envOf (some "acme") (some "widgets") none) [1, 2]
          ⟨"unexpected EOF"⟩) "GITHUB_ORG")
        (Getenv (brokenBodyWorld (envOf (some "acme") (some "widgets") none) [1, 2]
          ⟨"unexpected EOF"⟩) "GITHUB_REPO")
        (Getenv (brokenBodyWorld (envOf (some "acme") (some "widgets") none) [1, 2]
          ⟨"unexpected EOF"⟩) "GITHUB_TOKEN")
        Effects.empty).1 = (some [1, 2], some ⟨"unexpected EOF"⟩) ∧
    (Handle (brokenBodyWorld (envOf (some "acme") (some "widgets") none) [1, 2]
        ⟨"unexpected EOF"⟩) ⟨false, none, []⟩ ⟨"GET", "/", [], []⟩ Effects.empty).sink = [] ∧
    (Handle (brokenBodyWorld (envOf (some "acme") (some "widgets") none) [1, 2]
        ⟨"unexpected EOF"⟩) ⟨false, none, []⟩ ⟨"GET", "/", [], []⟩ Effects.empty).stdout
      = ["unexpected EOF\n"] :=
  ⟨rfl,
    (Handle_error_writes_nothing (brokenBodyWorld (envOf (some "acme") (some "widgets") none)
      [1, 2] ⟨"unexpected EOF"⟩) ⟨false, none, []⟩ ⟨"GET", "/", [], []⟩ Effects.empty
      (some [1, 2]) ⟨"unexpected EOF"⟩ rfl).1,
    (Handle_error_writes_nothing (brokenBodyWorld (envOf (some "acme") (some "widgets") none)
      [1, 2] ⟨"unexpected EOF"⟩) ⟨false, none, []⟩ ⟨"GET", "/", [], []⟩ Effects.empty
      (some [1, 2]) ⟨"unexpected EOF"⟩ rfl).2.1⟩

/-- C7: for every environment `Handle` enters `QueryIssues` exactly once, with the
values of GITHUB_ORG, GITHUB_REPO and GITHUB_TOKEN, an unset variable being read
as the empty string.  With all three unset the URL handed to `http.NewRequest` is
`https://api.github.com/repos///issues`, and the request sent, if that URL
parses, has the Authorization value `"Bearer "`. -/
theorem Handle_reads_environment (w : World) (ctx : Context) (req : Request) (fx : Effects) :
    (Handle w ctx req fx).queries
      = fx.queries ++ [((w.environ "GITHUB_ORG").getD "", (w.environ "GITHUB_REPO").getD "",
          (w.environ "GITHUB_TOKEN").getD "")] ∧
    (w.environ "GITHUB_ORG" = none → w.environ "GITHUB_REPO" = none →
      w.environ "GITHUB_TOKEN" = none →
      (Handle w ctx req fx).queries = fx.queries ++ [("", "", "")] ∧
      (Handle w ctx req fx).newRequests
        = fx.newRequests ++ [("GET", "https://api.github.com/repos///issues", [])] ∧
      (w.urlParse "https://api.github.com/repos///issues" = none →
        ∃ r, (Handle w ctx req fx).sent = fx.sent ++ [r] ∧
          r.URL = "https://api.github.com/repos///issues" ∧
          Header.Values r.Header "Authorization" = ["Bearer "])) := by
  have hl := Handle_log w ctx req fx
  have hq := QueryIssues_queries w (Getenv w "GITHUB_ORG") (Getenv w "GITHUB_REPO")
    (Getenv w "GITHUB_TOKEN") fx
  refine ⟨by rw [hl.1, hq.1]; rfl, ?_⟩
  intro h1 h2 h3
  have hu : issuesURL "" "" = "https://api.github.com/repos///issues" := by decide
  have g1 : Getenv w "GITHUB_ORG" = "" := by simp [Getenv, h1]
  have g2 : Getenv w "GITHUB_REPO" = "" := by simp [Getenv, h2]
  have g3 : Getenv w "GITHUB_TOKEN" = "" := by simp [Getenv, h3]
  rw [g1, g2, g3] at hl hq
  rw [hu] at hq
  refine ⟨by rw [hl.1, hq.1], by rw [hl.2.1, hq.2], ?_⟩
  intro hparse
  rw [← hu] at hparse
  refine ⟨issuesRequest "" "" "", ?_, ?_, ?_⟩
  · rw [hl.2.2, QueryIssues_sent w "" "" "" fx hparse]
  · exact hu
  · rw [issues_authorization]
    decide

theorem Handle_reads_environment_witness :
    (Handle (remoteWorld (envOf none none none) 200 []) ⟨false, none, []⟩
        ⟨"GET", "/", [], []⟩ Effects.empty).queries = [("", "", "")] ∧
    (Handle (remoteWorld (envOf none none none) 200 []) ⟨false, none, []⟩
        ⟨"GET", "/", [], []⟩ Effects.empty).newRequests
      = [("GET", "https://api.github.com/repos///issues", [])] ∧
    ∃ r, (Handle (remoteWorld (envOf none none none) 200 []) ⟨false, none, []⟩
          ⟨"GET", "/", [], []⟩ Effects.empty).sent = [r] ∧
      r.URL = "https://api.github.com/repos///issues" ∧
      Header.Values r.Header "Authorization" = ["Bearer "] :=
  ⟨((Handle_reads_environment (remoteWorld (envOf none none none) 200 []) ⟨false, none, []⟩
      ⟨"GET", "/", [], []⟩ Effects.empty).2 rfl rfl rfl).1,
    ((Handle_reads_environment (remoteWorld (envOf none none none) 200 []) ⟨false, none, []⟩
      ⟨"GET", "/", [], []⟩ Effects.empty).2 rfl rfl rfl).2.1,
    ((Handle_reads_environment (remoteWorld (envOf none none none) 200 []) ⟨false, none, []⟩
      ⟨"GET", "/", [], []⟩ Effects.empty).2 rfl rfl rfl).2.2 rfl⟩

/-- C8: whenever `QueryIssues` constructs the outbound request, the request it
sends has method GET, an empty body, and a header of exactly two entries,
Content-Type with the single value `application/vnd.github.v3+json` and
Authorization with a single value. -/
theorem QueryIssues_request_shape (w : World) (org repo token : String) (fx : Effects)
    (hparse : w.urlParse (issuesURL org repo) = none) :
    ∃ req, (QueryIssues w org repo token fx).2.sent = fx.sent ++ [req] ∧
      req.Method = "GET" ∧
      req.Body = [] ∧
      req.Header = [("Content-Type", ["application/vnd.github.v3+json"]),
                    ("Authorization", ["Bearer " ++ token])] ∧
      req.Header.length = 2 ∧
      Header.Values req.Header "Content-Type" = ["application/vnd.github.v3+json"] ∧
      (Header.Values req.Header "Authorization").length = 1 := by
  refine ⟨issuesRequest org repo token, QueryIssues_sent w org repo token fx hparse,
    rfl, rfl, rfl, rfl, ?_, ?_⟩
  · have h1 : CanonicalMIMEHeaderKey "Content-Type" = "Content-Type" := by decide
    simp [Header.Values, issuesRequest, h1, List.lookup]
  · rw [issues_authorization]
    rfl

theorem QueryIssues_request_shape_witness :
    (remoteWorld (envOf none none none) 500 [9]).urlParse (issuesURL "acme" "widgets") = none ∧
    ∃ req, (QueryIssues (remoteWorld (envOf none none none) 500 [9]) "acme" "widgets" "abc123"
          Effects.empty).2.sent = Effects.empty.sent ++ [req] ∧
      req.Method = "GET" ∧
      req.Body = [] ∧
      req.Header = [("Content-Type", ["application/vnd.github.v3+json"]),
                    ("Authorization", ["Bearer " ++ "abc123"])] ∧
      req.Header.length = 2 ∧
      Header.Values req.Header "Content-Type" = ["application/vnd.github.v3+json"] ∧
      (Header.Values req.Header "Authorization").length = 1 :=
  ⟨rfl, QueryIssues_request_shape (remoteWorld (envOf none none none) 500 [9])
    "acme" "widgets" "abc123" Effects.empty rfl⟩

/-- C9: two invocations of `Handle` that read the same values of GITHUB_ORG,
GITHUB_REPO and GITHUB_TOKEN and meet the same URL parsing and the same remote
behaviour leave the same log (requests built and sent, sink operations, output),
whatever the incoming requests and contexts are. -/
theorem Handle_ignores_request (w1 w2 : World) (ctx1 ctx2 : Context) (req1 req2 : Request)
    (fx : Effects)
    (horg : Getenv w1 "GITHUB_ORG" = Getenv w2 "GITHUB_ORG")
    (hrepo : Getenv w1 "GITHUB_REPO" = Getenv w2 "GITHUB_REPO")
    (htoken : Getenv w1 "GITHUB_TOKEN" = Getenv w2 "GITHUB_TOKEN")
    (hparse : w1.urlParse = w2.urlParse)
    (hremote : w1.roundTrip = w2.roundTrip) :
    Handle w1 ctx1 req1 fx = Handle w2 ctx2 req2 fx := by
  have hq : ∀ org repo token, QueryIssues w1 org repo token fx = QueryIssues w2 org repo token fx := by
    intro org repo token
    simp [QueryIssues, NewRequest, ClientDo, hparse, hremote]
  simp [Handle, horg, hrepo, htoken, hq]

theorem Handle_ignores_request_witness :
    Getenv (remoteWorld (envOf (some "acme") (some "widgets") none) 200 [1]) "GITHUB_ORG"
      = Getenv (remoteWorld (envOf (some "acme") (some "widgets") (some "")) 200 [1])
          "GITHUB_ORG" ∧
    Getenv (remoteWorld (envOf (some "acme") (some "widgets") none) 200 [1]) "GITHUB_TOKEN"
      = Getenv (remoteWorld (envOf (some "acme") (some "widgets") (some "")) 200 [1])
          "GITHUB_TOKEN" ∧
    Handle (remoteWorld (envOf (some "acme") (some "widgets") none) 200 [1])
        ⟨false, none, []⟩ ⟨"GET", "/", [], []⟩ Effects.empty
      = Handle (remoteWorld (envOf (some "acme") (some "widgets") (some "")) 200 [1])
        ⟨true, some 5, [("k", "v")]⟩ ⟨"POST", "/x?y=1", [("Accept", ["text/plain"])], [1, 2]⟩
        Effects.empty :=
  ⟨rfl, rfl,
    Handle_ignores_request (remoteWorld (envOf (some "acme") (some "widgets") none) 200 [1])
      (remoteWorld (envOf (some "acme") (some "widgets") (some "")) 200 [1])
      ⟨false, none, []⟩ ⟨true, some 5, [("k", "v")]⟩ ⟨"GET", "/", [], []⟩
      ⟨"POST", "/x?y=1", [("Accept", ["text/plain"])], [1, 2]⟩ Effects.empty rfl rfl rfl rfl rfl⟩

/-- C10, as stated, fails: in one world, a call whose URL does not parse and a
call whose connection is refused both fail, and the two errors returned are
different values. -/
theorem QueryIssues_errors_differ :
    (QueryIssues (strictParseWorld (envOf none none none) parseFailure
        dialFailure) "%zz" "widgets" "abc123" Effects.empty).1
      = (none, some parseFailure) ∧
    (QueryIssues (strictParseWorld (envOf none none none) parseFailure
        dialFailure) "acme" "widgets" "abc123" Effects.empty).1
      = (none, some dialFailure) ∧
    (QueryIssues (strictParseWorld (envOf none none none) parseFailure
        dialFailure) "%zz" "widgets" "abc123" Effects.empty).1.2
      ≠ (QueryIssues (strictParseWorld (envOf none none none) parseFailure
        dialFailure) "acme" "widgets" "abc123" Effects.empty).1.2 := by
  have hA := QueryIssues_parse_error
    (strictParseWorld (envOf none none none) parseFailure
      dialFailure) "%zz" "widgets" "abc123" Effects.empty
    parseFailure (by decide)
  have hB := QueryIssues_do_error
    (strictParseWorld (envOf none none none) parseFailure
      dialFailure) "acme" "widgets" "abc123" Effects.empty
    dialFailure (by decide) rfl
  refine ⟨congrArg Prod.fst hA, congrArg Prod.fst hB, ?_⟩
  rw [hA, hB]
  decide

/-- C10, amended: a call of `QueryIssues` fails with error `e` exactly when `e` is
the error of the step that failed, the URL parse in `http.NewRequest`,
`client.Do`, or the read of the response body; the error of that step is
returned unchanged. -/
theorem QueryIssues_error_passthrough (w : World) (org repo token : String) (fx : Effects)
    (e : GoError) :
    (QueryIssues w org repo token fx).1.2 = some e ↔
      (w.urlParse (issuesURL org repo) = some e ∨
        (w.urlParse (issuesURL org repo) = none ∧
          w.roundTrip (issuesRequest org repo token) = .error e) ∨
        (w.urlParse (issuesURL org repo) = none ∧
          ∃ resp, w.roundTrip (issuesRequest org repo token) = .ok resp ∧
            readError resp.Body = some e)) := by
  rcases QueryIssues_cases w org repo token fx with ⟨e1, h1, h⟩ | ⟨e1, h1, h2, h⟩ |
    ⟨resp, h1, h2, h⟩
  · simp [h, h1]
  · simp [h, h1, h2]
  · simp [h, h1, h2]

theorem QueryIssues_error_passthrough_witness :
    (QueryIssues (brokenBodyWorld (envOf none none none) [1, 2] ⟨"unexpected EOF"⟩)
        "acme" "widgets" "abc123" Effects.empty).1.2 = some ⟨"unexpected EOF"⟩ :=
  (QueryIssues_error_passthrough (brokenBodyWorld (envOf none none none) [1, 2]
      ⟨"unexpected EOF"⟩) "acme" "widgets" "abc123" Effects.empty ⟨"unexpected EOF"⟩).2
    (Or.inr (Or.inr ⟨rfl, _, rfl, rfl⟩))

end IssuePuller
